import Mathlib

/-
  Verification of `part-3.py`, a demonstration of Python's
  definition-time evaluation of mutable default arguments.

  The script is embedded shallowly.  Python lists are mutable objects, so
  the model uses an explicit heap of list cells addressed by `Ref`; the
  default argument of `test` is one cell of that heap, allocated exactly
  once when the state is initialised (definition time), and every call
  that omits the argument reads and writes that same cell.
-/

namespace PartThree

/-- A reference to a heap-allocated Python list. -/
abbrev Ref := Nat

/-- The heap: each cell holds the contents of one Python list object.
    Allocation appends a fresh cell, so fresh references never alias
    existing ones. -/
structure Heap where
  cells : List (List Int)
deriving DecidableEq, Repr

/-- Allocate a fresh list object with contents `v`; the fresh reference is
    the index of the new cell. -/
def Heap.alloc (h : Heap) (v : List Int) : Heap × Ref :=
  (⟨h.cells ++ [v]⟩, h.cells.length)

/-- Read a list object's contents. -/
def Heap.get (h : Heap) (r : Ref) : List Int :=
  h.cells.getD r []

/-- Overwrite a list object's contents (in-place mutation of the object). -/
def Heap.set (h : Heap) (r : Ref) (v : List Int) : Heap :=
  ⟨h.cells.set r v⟩

/-- Python's textual rendering of a list of integers, as produced by
    `print(a)`: elements separated by `, `, inside square brackets. -/
def pyRepr (v : List Int) : String :=
  "[" ++ String.intercalate ", " (v.map toString) ++ "]"

/-- `def arr(): return [1,2,3]` — allocates a fresh list `[1,2,3]`
    and returns a reference to it.  It reads no state: the existing heap
    cells are untouched. -/
def arr (h : Heap) : Heap × Ref :=
  Heap.alloc h [1, 2, 3]

/-- The body of `def test(a): a.append(4); print(a)` — mutates the list
    object `a` refers to by appending `4`, then prints its contents.
    The third component is the Python return value, always `None`. -/
def test (h : Heap) (a : Ref) : Heap × String × Option Ref :=
  let v := Heap.get h a ++ [4]
  (Heap.set h a v, pyRepr v, none)

/-- The interpreter state: the heap, the reference held in `test`'s
    default-argument slot, and the console output so far. -/
structure PyState where
  heap : Heap
  defaultRef : Ref
  output : List String
deriving DecidableEq, Repr

/-- The state after `test` is defined: `arr()` has been evaluated exactly
    once, on the empty heap, and its result stored in the default slot.
    No output has been produced. -/
def initState : PyState :=
  let p := arr ⟨[]⟩
  { heap := p.1, defaultRef := p.2, output := [] }

/-- A call site of `test`: either the argument is omitted, or a fresh
    list literal with the given contents is passed explicitly. -/
inductive Arg where
  | omitted : Arg
  | explicit : List Int → Arg
deriving DecidableEq, Repr

/-- One call to `test`.  An omitted argument binds `a` to the shared
    default reference; an explicit list literal allocates a fresh object
    and binds `a` to it.  The printed line is appended to the output. -/
def callTest (s : PyState) (g : Arg) : PyState :=
  match g with
  | Arg.omitted =>
      let r := test s.heap s.defaultRef
      { heap := r.1, defaultRef := s.defaultRef, output := s.output ++ [r.2.1] }
  | Arg.explicit v =>
      let p := Heap.alloc s.heap v
      let r := test p.1 p.2
      { heap := r.1, defaultRef := s.defaultRef, output := s.output ++ [r.2.1] }

/-- Run a sequence of calls to `test` in order. -/
def run (s : PyState) : List Arg → PyState
  | [] => s
  | g :: gs => run (callTest s g) gs

/-- The driver of the script: `test(); test([8,9,10]); test()`. -/
def driver : List Arg :=
  [Arg.omitted, Arg.explicit [8, 9, 10], Arg.omitted]

/-- How many calls in a sequence omit the argument. -/
def countOmitted : List Arg → Nat
  | [] => 0
  | Arg.omitted :: gs => countOmitted gs + 1
  | Arg.explicit _ :: gs => countOmitted gs

/-- Reading the cell just written. -/
theorem Heap.get_set_self (h : Heap) (a : Ref) (v : List Int)
    (ha : a < h.cells.length) : Heap.get (Heap.set h a v) a = v := by
  simp [Heap.get, Heap.set, List.getD, List.getElem?_set_self ha]

/-- Writing one cell leaves every other cell unchanged. -/
theorem Heap.get_set_ne (h : Heap) (a r : Ref) (v : List Int)
    (hr : r ≠ a) : Heap.get (Heap.set h a v) r = Heap.get h r := by
  simp [Heap.get, Heap.set, List.getD, List.getElem?_set_ne hr.symm]

/-- Writing a cell does not change the number of allocated cells. -/
theorem Heap.set_length (h : Heap) (a : Ref) (v : List Int) :
    (Heap.set h a v).cells.length = h.cells.length := by
  simp [Heap.set]

/-- Allocation adds exactly one cell. -/
theorem Heap.alloc_length (h : Heap) (v : List Int) :
    (Heap.alloc h v).1.cells.length = h.cells.length + 1 := by
  simp [Heap.alloc]

/-- The fresh reference points at the new contents. -/
theorem Heap.get_alloc_self (h : Heap) (v : List Int) :
    Heap.get (Heap.alloc h v).1 (Heap.alloc h v).2 = v := by
  simp [Heap.get, Heap.alloc, List.getD, List.getElem?_concat_length]

/-- Allocation leaves every existing cell unchanged. -/
theorem Heap.get_alloc_lt (h : Heap) (v : List Int) (r : Ref)
    (hr : r < h.cells.length) :
    Heap.get (Heap.alloc h v).1 r = Heap.get h r := by
  simp [Heap.get, Heap.alloc, List.getD, List.getElem?_append_left hr]

/-- The body of `test` with explicit bounds checking: it fails (returns
    `none`) whenever `a` is not a live object.  Used to show that no
    operation of the script can fail under the driver's usage. -/
def testChecked (h : Heap) (a : Ref) : Option (Heap × String) :=
  match h.cells[a]? with
  | none => none
  | some w => some (Heap.set h a (w ++ [4]), pyRepr (w ++ [4]))

/-- A bounds-checked call to `test`. -/
def callTestChecked (s : PyState) (g : Arg) : Option PyState :=
  match g with
  | Arg.omitted =>
      match testChecked s.heap s.defaultRef with
      | none => none
      | some r =>
          some { heap := r.1, defaultRef := s.defaultRef,
                 output := s.output ++ [r.2] }
  | Arg.explicit v =>
      let p := Heap.alloc s.heap v
      match testChecked p.1 p.2 with
      | none => none
      | some r =>
          some { heap := r.1, defaultRef := s.defaultRef,
                 output := s.output ++ [r.2] }

/-- Run a sequence of bounds-checked calls, stopping at the first failure. -/
def runChecked (s : PyState) : List Arg → Option PyState
  | [] => some s
  | g :: gs =>
      match callTestChecked s g with
      | none => none
      | some s2 => runChecked s2 gs

/-- The process environment a run could in principle depend on: standard
    input, a clock reading, environment variables.  The script contains
    no operation that reads any of these. -/
structure Env where
  stdinLines : List String
  clock : Nat
  envVars : List (String × String)

/-- The whole script, from a fresh process with environment `e`: define
    `arr` and `test` (evaluating the default once), run the three driver
    calls, and return the console output.  No step of the source inspects
    the environment. -/
def runScript (_e : Env) : List String :=
  (run initState driver).output

/-- No call to `test` rebinds the default-argument slot. -/
theorem callTest_defaultRef (s : PyState) (g : Arg) :
    (callTest s g).defaultRef = s.defaultRef := by
  cases g <;> rfl

/-- An omitted-argument call appends `4` to the shared default cell. -/
theorem callTest_omitted_get (s : PyState)
    (hv : s.defaultRef < s.heap.cells.length) :
    Heap.get (callTest s Arg.omitted).heap s.defaultRef =
      Heap.get s.heap s.defaultRef ++ [4] := by
  simpa [callTest, test] using
    Heap.get_set_self s.heap s.defaultRef (Heap.get s.heap s.defaultRef ++ [4]) hv

/-- An omitted-argument call allocates nothing. -/
theorem callTest_omitted_length (s : PyState) :
    (callTest s Arg.omitted).heap.cells.length = s.heap.cells.length := by
  simp [callTest, test, Heap.set_length]

/-- An omitted-argument call prints the mutated default contents. -/
theorem callTest_omitted_output (s : PyState) :
    (callTest s Arg.omitted).output =
      s.output ++ [pyRepr (Heap.get s.heap s.defaultRef ++ [4])] := by
  rfl

/-- An explicit-argument call leaves the shared default cell untouched:
    the fresh object it mutates is a different cell. -/
theorem callTest_explicit_get (s : PyState) (v : List Int)
    (hv : s.defaultRef < s.heap.cells.length) :
    Heap.get (callTest s (Arg.explicit v)).heap s.defaultRef =
      Heap.get s.heap s.defaultRef := by
  have hne : s.defaultRef ≠ s.heap.cells.length := Nat.ne_of_lt hv
  calc Heap.get (callTest s (Arg.explicit v)).heap s.defaultRef
      = Heap.get (Heap.alloc s.heap v).1 s.defaultRef := by
        simpa [callTest, test] using
          Heap.get_set_ne (Heap.alloc s.heap v).1 s.heap.cells.length
            s.defaultRef _ hne
    _ = Heap.get s.heap s.defaultRef := Heap.get_alloc_lt s.heap v s.defaultRef hv

/-- An explicit-argument call allocates exactly one fresh cell. -/
theorem callTest_explicit_length (s : PyState) (v : List Int) :
    (callTest s (Arg.explicit v)).heap.cells.length = s.heap.cells.length + 1 := by
  simp [callTest, test, Heap.set_length, Heap.alloc_length]

/-- Any call leaves the default slot valid and keeps the heap at least as
    large. -/
theorem callTest_length_le (s : PyState) (g : Arg) :
    s.heap.cells.length ≤ (callTest s g).heap.cells.length := by
  cases g with
  | omitted => simp [callTest_omitted_length]
  | explicit v => simp [callTest_explicit_length]

/-- Invariant of any call sequence: the default slot is unchanged and
    stays valid, and the shared default cell accumulates exactly one
    trailing `4` per omitted-argument call, in call order. -/
theorem run_default_invariant (gs : List Arg) (s : PyState)
    (hv : s.defaultRef < s.heap.cells.length) :
    (run s gs).defaultRef = s.defaultRef ∧
    s.defaultRef < (run s gs).heap.cells.length ∧
    Heap.get (run s gs).heap s.defaultRef =
      Heap.get s.heap s.defaultRef ++ List.replicate (countOmitted gs) 4 := by
  induction gs generalizing s with
  | nil => exact ⟨rfl, hv, by simp [run, countOmitted]⟩
  | cons g gs ih =>
      have hv2 : (callTest s g).defaultRef < (callTest s g).heap.cells.length := by
        rw [callTest_defaultRef]
        exact Nat.lt_of_lt_of_le hv (callTest_length_le s g)
      obtain ⟨h1, h2, h3⟩ := ih (callTest s g) hv2
      rw [callTest_defaultRef] at h1 h2 h3
      refine ⟨h1, h2, ?_⟩
      cases g with
      | omitted =>
          rw [show run s (Arg.omitted :: gs) = run (callTest s Arg.omitted) gs from rfl,
            h3, callTest_omitted_get s hv, countOmitted, List.replicate_succ,
            List.append_assoc]
          rfl
      | explicit v =>
          rw [show run s (Arg.explicit v :: gs) = run (callTest s (Arg.explicit v)) gs
              from rfl,
            h3, callTest_explicit_get s v hv, countOmitted]

/-- Claim C1: running the driver's three calls in order prints exactly
    `[1, 2, 3, 4]`, then `[8, 9, 10, 4]`, then `[1, 2, 3, 4, 4]`. -/
theorem c1_driver_output :
    (run initState driver).output =
      ["[1, 2, 3, 4]", "[8, 9, 10, 4]", "[1, 2, 3, 4, 4]"] := by
  decide

/-- Claim C2: on any list object `a` (any valid reference), `test` mutates
    the object in place so that its contents become the previous contents
    with `4` appended, prints exactly those contents, and returns `None`. -/
theorem c2_test_appends_and_prints (h : Heap) (a : Ref)
    (hv : a < h.cells.length) :
    Heap.get (test h a).1 a = Heap.get h a ++ [4] ∧
    (test h a).2.1 = pyRepr (Heap.get h a ++ [4]) ∧
    (test h a).2.2 = none :=
  ⟨Heap.get_set_self h a (Heap.get h a ++ [4]) hv, rfl, rfl⟩

/-- Witness for C2 at the heap holding the single list `[1,2,3]`. -/
theorem c2_test_appends_and_prints_w :
    Heap.get (test ⟨[[1, 2, 3]]⟩ 0).1 0 = Heap.get ⟨[[1, 2, 3]]⟩ 0 ++ [4] ∧
    (test ⟨[[1, 2, 3]]⟩ 0).2.1 = pyRepr (Heap.get ⟨[[1, 2, 3]]⟩ 0 ++ [4]) ∧
    (test ⟨[[1, 2, 3]]⟩ 0).2.2 = none :=
  c2_test_appends_and_prints ⟨[[1, 2, 3]]⟩ 0 (by decide)

/-- Claim C3: the default sequence is constructed exactly once, at
    definition time, with contents `[1,2,3]` (the initial state holds
    exactly one allocated object, before any call); every omitted-argument
    call reads and mutates that same instance — it allocates nothing,
    keeps the default slot pointing at the same cell, and appends to that
    cell in place. -/
theorem c3_default_constructed_once (s : PyState)
    (hv : s.defaultRef < s.heap.cells.length) :
    initState.heap.cells.length = 1 ∧
    initState.output = [] ∧
    Heap.get initState.heap initState.defaultRef = [1, 2, 3] ∧
    (callTest s Arg.omitted).defaultRef = s.defaultRef ∧
    (callTest s Arg.omitted).heap.cells.length = s.heap.cells.length ∧
    Heap.get (callTest s Arg.omitted).heap s.defaultRef =
      Heap.get s.heap s.defaultRef ++ [4] :=
  ⟨rfl, rfl, rfl, callTest_defaultRef s Arg.omitted, callTest_omitted_length s,
    callTest_omitted_get s hv⟩

/-- Witness for C3 at the definition-time state. -/
theorem c3_default_constructed_once_w :
    initState.heap.cells.length = 1 ∧
    initState.output = [] ∧
    Heap.get initState.heap initState.defaultRef = [1, 2, 3] ∧
    (callTest initState Arg.omitted).defaultRef = initState.defaultRef ∧
    (callTest initState Arg.omitted).heap.cells.length =
      initState.heap.cells.length ∧
    Heap.get (callTest initState Arg.omitted).heap initState.defaultRef =
      Heap.get initState.heap initState.defaultRef ++ [4] :=
  c3_default_constructed_once initState (by decide)

/-- Running an appended call sequence runs the suffix from the state the
    prefix reaches. -/
theorem run_append (s : PyState) (gs1 gs2 : List Arg) :
    run s (gs1 ++ gs2) = run (run s gs1) gs2 := by
  induction gs1 generalizing s with
  | nil => rfl
  | cons g gs ih => simpa [run] using ih (callTest s g)

/-- A sequence of explicit-argument calls omits the argument zero times. -/
theorem countOmitted_map_explicit (vs : List (List Int)) :
    countOmitted (vs.map Arg.explicit) = 0 := by
  induction vs with
  | nil => rfl
  | cons v vs ih => simpa [countOmitted] using ih

/-- Claim C4: a call to `test` with an explicit argument never touches the
    shared default cell (and does not rebind the default slot); in the
    driver, the second call mutates only the freshly allocated `[8,9,10]`
    object, which becomes `[8,9,10,4]`, while the shared default is still
    `[1,2,3,4]` afterwards. -/
theorem c4_explicit_call_preserves_default (s : PyState) (v : List Int)
    (hv : s.defaultRef < s.heap.cells.length) :
    Heap.get (callTest s (Arg.explicit v)).heap s.defaultRef =
      Heap.get s.heap s.defaultRef ∧
    (callTest s (Arg.explicit v)).defaultRef = s.defaultRef ∧
    Heap.get (run initState [Arg.omitted, Arg.explicit [8, 9, 10]]).heap
      (Heap.alloc (callTest initState Arg.omitted).heap [8, 9, 10]).2 =
        [8, 9, 10, 4] ∧
    Heap.get (run initState [Arg.omitted, Arg.explicit [8, 9, 10]]).heap
      initState.defaultRef = [1, 2, 3, 4] :=
  ⟨callTest_explicit_get s v hv, callTest_defaultRef s (Arg.explicit v),
    by decide, by decide⟩

/-- Witness for C4 at the definition-time state and the driver's list. -/
theorem c4_explicit_call_preserves_default_w :
    Heap.get (callTest initState (Arg.explicit [8, 9, 10])).heap
      initState.defaultRef = Heap.get initState.heap initState.defaultRef ∧
    (callTest initState (Arg.explicit [8, 9, 10])).defaultRef =
      initState.defaultRef ∧
    Heap.get (run initState [Arg.omitted, Arg.explicit [8, 9, 10]]).heap
      (Heap.alloc (callTest initState Arg.omitted).heap [8, 9, 10]).2 =
        [8, 9, 10, 4] ∧
    Heap.get (run initState [Arg.omitted, Arg.explicit [8, 9, 10]]).heap
      initState.defaultRef = [1, 2, 3, 4] :=
  c4_explicit_call_preserves_default initState [8, 9, 10] (by decide)

/-- Claim C5: after any call sequence, the shared default cell equals
    `[1,2,3]` followed by one trailing `4` per omitted-argument call, in
    call order, whatever explicit-argument calls are interleaved; and one
    further omitted-argument call appends exactly one more `4`. -/
theorem c5_default_accumulates (gs : List Arg) :
    Heap.get (run initState gs).heap initState.defaultRef =
      [1, 2, 3] ++ List.replicate (countOmitted gs) 4 ∧
    Heap.get (run initState (gs ++ [Arg.omitted])).heap initState.defaultRef =
      Heap.get (run initState gs).heap initState.defaultRef ++ [4] := by
  obtain ⟨h1, h2, h3⟩ := run_default_invariant gs initState (by decide)
  refine ⟨h3, ?_⟩
  rw [run_append]
  have := callTest_omitted_get (run initState gs) (h1 ▸ h2)
  rw [h1] at this
  simpa [run] using this

/-- Claim C6: in a fresh process, however many explicit-argument calls
    come first, the default cell still holds `[1,2,3]` when the first
    omitted-argument call happens; that call therefore prints
    `[1, 2, 3, 4]` and leaves the definition-time default at `[1,2,3,4]`. -/
theorem c6_first_omitted_call (vs : List (List Int)) :
    Heap.get (run initState (vs.map Arg.explicit)).heap
      initState.defaultRef = [1, 2, 3] ∧
    (callTest (run initState (vs.map Arg.explicit)) Arg.omitted).output =
      (run initState (vs.map Arg.explicit)).output ++ ["[1, 2, 3, 4]"] ∧
    Heap.get (callTest (run initState (vs.map Arg.explicit)) Arg.omitted).heap
      initState.defaultRef = [1, 2, 3, 4] := by
  obtain ⟨h1, h2, h3⟩ :=
    run_default_invariant (vs.map Arg.explicit) initState (by decide)
  rw [countOmitted_map_explicit] at h3
  simp only [List.replicate, List.append_nil] at h3
  refine ⟨h3, ?_, ?_⟩
  · rw [callTest_omitted_output, h1, h3]
    rfl
  · have := callTest_omitted_get (run initState (vs.map Arg.explicit)) (h1 ▸ h2)
    rw [h1, h3] at this
    exact this

/-- Claim C7: under the driver's usage no operation of `test` can fail:
    the bounds-checked semantics succeeds at every one of the three call
    sites and agrees with the total semantics. -/
theorem c7_driver_never_fails :
    runChecked initState driver = some (run initState driver) := by
  decide

/-- Claim C8: `arr` always returns a freshly allocated object with
    contents `[1,2,3]`: the result contents are the same on every heap,
    no existing cell is read or written, and the returned reference
    differs from every live reference, so it never aliases a previously
    returned list. -/
theorem c8_arr_fresh (h : Heap) (r : Ref) (hr : r < h.cells.length) :
    Heap.get (arr h).1 (arr h).2 = [1, 2, 3] ∧
    (arr h).1.cells = h.cells ++ [[1, 2, 3]] ∧
    (arr h).2 = h.cells.length ∧
    Heap.get (arr h).1 r = Heap.get h r ∧
    (arr h).2 ≠ r :=
  ⟨Heap.get_alloc_self h [1, 2, 3], rfl, rfl,
    Heap.get_alloc_lt h [1, 2, 3] r hr, (Nat.ne_of_lt hr).symm⟩

/-- Witness for C8 on a heap with one live object. -/
theorem c8_arr_fresh_w :
    Heap.get (arr ⟨[[1, 2, 3]]⟩).1 (arr ⟨[[1, 2, 3]]⟩).2 = [1, 2, 3] ∧
    (arr ⟨[[1, 2, 3]]⟩).1.cells = [[1, 2, 3]] ++ [[1, 2, 3]] ∧
    (arr ⟨[[1, 2, 3]]⟩).2 = ([[1, 2, 3]] : List (List Int)).length ∧
    Heap.get (arr ⟨[[1, 2, 3]]⟩).1 0 = Heap.get ⟨[[1, 2, 3]]⟩ 0 ∧
    (arr ⟨[[1, 2, 3]]⟩).2 ≠ 0 :=
  c8_arr_fresh ⟨[[1, 2, 3]]⟩ 0 (by decide)

/-- Claim C9: `test` changes nothing except the object it is passed and
    the console: the heap keeps the same cells, every element of `a`
    present before the call keeps its position and value, the length of
    `a` grows by exactly one, and every other object is untouched. -/
theorem c9_test_frame (h : Heap) (a r i : Nat) (hv : a < h.cells.length)
    (hi : i < (Heap.get h a).length) (hr : r ≠ a) :
    (test h a).1.cells.length = h.cells.length ∧
    (Heap.get (test h a).1 a).length = (Heap.get h a).length + 1 ∧
    (Heap.get (test h a).1 a)[i]? = (Heap.get h a)[i]? ∧
    Heap.get (test h a).1 r = Heap.get h r := by
  have hcell : Heap.get (test h a).1 a = Heap.get h a ++ [4] :=
    Heap.get_set_self h a (Heap.get h a ++ [4]) hv
  refine ⟨?_, ?_, ?_, ?_⟩
  · simpa [test] using Heap.set_length h a (Heap.get h a ++ [4])
  · simp [hcell]
  · rw [hcell]
    exact List.getElem?_append_left hi
  · simpa [test] using Heap.get_set_ne h a r (Heap.get h a ++ [4]) hr

/-- Witness for C9 on a two-object heap, checking the untouched cell. -/
theorem c9_test_frame_w :
    (test ⟨[[1, 2, 3], [8, 9, 10]]⟩ 0).1.cells.length =
      (Heap.mk [[1, 2, 3], [8, 9, 10]]).cells.length ∧
    (Heap.get (test ⟨[[1, 2, 3], [8, 9, 10]]⟩ 0).1 0).length =
      (Heap.get ⟨[[1, 2, 3], [8, 9, 10]]⟩ 0).length + 1 ∧
    (Heap.get (test ⟨[[1, 2, 3], [8, 9, 10]]⟩ 0).1 0)[0]? =
      (Heap.get ⟨[[1, 2, 3], [8, 9, 10]]⟩ 0)[0]? ∧
    Heap.get (test ⟨[[1, 2, 3], [8, 9, 10]]⟩ 0).1 1 =
      Heap.get ⟨[[1, 2, 3], [8, 9, 10]]⟩ 1 :=
  c9_test_frame ⟨[[1, 2, 3], [8, 9, 10]]⟩ 0 1 0 (by decide) (by decide)
    (by decide)

/-- Claim C10: the script is deterministic: its console output is the
    same whatever the process environment (stdin, clock, environment
    variables), since no step of the source reads any of them; any two
    fresh runs print the same three lines in the same order. -/
theorem c10_deterministic (e1 e2 : Env) :
    runScript e1 = runScript e2 ∧
    runScript e1 = (run initState driver).output :=
  ⟨rfl, rfl⟩

end PartThree
